import Mathlib

/-
Shallow embedding of the confirmation-gated action pipeline of the
"Ava: AI Concierge" application (App.tsx) together with the recurring-task
utilities (utils/taskUtils.ts).

Modelling conventions:
  - Calendar dates that the source compares via `Date.getTime()` after
    normalising to start of day (RecurringTask.dueDate,
    RecurringTask.lastExecutionDate, the "today" of the reminder scanner)
    are modelled as integer day numbers.  Dates that are only stored and
    displayed (CalendarEvent.date, PaymentDetail dates, Goal dates) stay
    strings.
  - The empty string stored in `lastExecutionDate` of a draft is falsy in
    the source; it is modelled as `none`.
  - `Date.now()` is a parameter `now : Nat` of the commit operation; the
    generated id `Date.now().toString()` becomes `toString now`, and
    `new Date().toISOString().split("T")[0]` becomes the day number
    `now / 86400000` (rendered with `toString` where the source stores the
    date string).
  - Locale-dependent display formatting (Intl, toLocaleString) is
    abstracted as plain concatenation; no claim inspects those strings.
  - The Gemini calls are external: their outcomes enter the model as
    explicit parameters (`FunctionCall` for a returned intent,
    `OracleReply` for the follow-up sendMessage outcome).
-/

namespace Ava

/-- Role of a chat message sender (types.ts, MessageRole). -/
inductive MessageRole where
  | user
  | ai
deriving DecidableEq, Repr

/-- A chat message (types.ts, Message).  Grounding sources are kept as an
optional list of (uri, title) pairs. -/
structure Message where
  role : MessageRole
  content : String
  groundingSources : Option (List (String × String))
deriving DecidableEq, Repr

/-- Dates compared numerically in the source are integer day numbers here. -/
abbrev Day := Int

/-- Recurrence pattern of a task (types.ts, RecurrenceType). -/
inductive RecurrenceType where
  | daily
  | weekly
  | monthly
deriving DecidableEq, Repr

/-- The string value of the recurrence enum (types.ts). -/
def RecurrenceType.value : RecurrenceType → String
  | .daily => "daily"
  | .weekly => "weekly"
  | .monthly => "monthly"

/-- A calendar event (types.ts, CalendarEvent). -/
structure CalendarEvent where
  id : String
  title : String
  date : String
  time : String
deriving DecidableEq, Repr

/-- A recurring task (types.ts, RecurringTask).  `lastExecutionDate` is a
string in the source whose empty value is falsy; modelled as an optional
day number.  `dueDate` is optional in the source. -/
structure RecurringTask where
  id : String
  title : String
  recurrence : RecurrenceType
  lastExecutionDate : Option Day
  dueDate : Option Day
  completed : Bool
deriving DecidableEq, Repr

/-- A bill payment record (types.ts, PaymentDetail). -/
structure PaymentDetail where
  id : String
  biller : String
  amount : Int
  dueDate : String
  paymentDate : String
deriving DecidableEq, Repr

/-- Status of a goal (types.ts, GoalStatus). -/
inductive GoalStatus where
  | notStarted
  | inProgress
  | completed
  | onHold
  | cancelled
deriving DecidableEq, Repr

/-- A goal record (types.ts, Goal). -/
structure Goal where
  id : String
  title : String
  description : Option String
  targetDate : String
  progress : Nat
  status : GoalStatus
  creationDate : String
deriving DecidableEq, Repr

/-- Day number of a millisecond timestamp: models
`new Date(now).toISOString().split("T")[0]`, identifying a calendar date
with its UTC day number. -/
def msToDay (now : Nat) : Day := ((now / 86400000 : Nat) : Int)

/-- The date string stored by the source at commit time, rendered from the
day number. -/
def msToDateString (now : Nat) : String := toString (msToDay now)

/-- Arguments carried by a function call.  The goal constructor also carries
the extra `progress` and `status` properties an intent might request; the
source destructuring reads only title, description and targetDate, so they
are ignored. -/
inductive FnArgs where
  | eventArgs (title date time : String)
  | taskArgs (title : String) (recurrence : RecurrenceType) (dueDate : Option Day)
  | payArgs (biller : String) (amount : Int) (dueDate : String)
  | goalArgs (title : String) (description : Option String) (targetDate : String)
      (progress : Option Nat) (status : Option GoalStatus)
  | toggleArgs (taskId : String) (newStatus : Bool)
deriving DecidableEq, Repr

/-- A function call returned by the model, or the dummy call built by the
UI toggle flow (App.tsx). -/
structure FunctionCall where
  id : String
  name : String
  args : FnArgs
deriving DecidableEq, Repr

/-- Models the TS destructuring `fc.args as {title; date; time}`: fields of
a mismatched argument object read as undefined, modelled by empty
defaults (unreachable for calls the model actually produces). -/
def FnArgs.asEventArgs : FnArgs → String × String × String
  | .eventArgs title date time => (title, date, time)
  | _ => ("", "", "")

/-- Models `fc.args as {title; recurrence; dueDate}`. -/
def FnArgs.asTaskArgs : FnArgs → String × RecurrenceType × Option Day
  | .taskArgs title recurrence dueDate => (title, recurrence, dueDate)
  | _ => ("", .daily, none)

/-- Models `fc.args as {biller; amount; dueDate}`. -/
def FnArgs.asPayArgs : FnArgs → String × Int × String
  | .payArgs biller amount dueDate => (biller, amount, dueDate)
  | _ => ("", 0, "")

/-- Models `fc.args as {title; description; targetDate}`; the extra
progress and status properties are dropped exactly as the source
destructuring drops them. -/
def FnArgs.asGoalArgs : FnArgs → String × Option String × String
  | .goalArgs title description targetDate _ _ => (title, description, targetDate)
  | _ => ("", none, "")

/-- The union type of `pendingActionDetails` in App.tsx
(CalendarEvent | RecurringTask | PaymentDetail | Goal). -/
inductive PendingDetails where
  | event (e : CalendarEvent)
  | task (t : RecurringTask)
  | payment (p : PaymentDetail)
  | goal (g : Goal)
deriving DecidableEq, Repr

/-- The value of `pendingActionType` in App.tsx. -/
inductive PendingType where
  | event
  | task
  | payment
  | goal
  | confirmTaskCompletion
deriving DecidableEq, Repr

/-- Models the TS cast `pendingActionDetails as CalendarEvent`: on a
mismatched draft the fields read as undefined, modelled by empty defaults
(such states never arise in the actual flows). -/
def PendingDetails.asEvent : PendingDetails → CalendarEvent
  | .event e => e
  | _ => { id := "", title := "", date := "", time := "" }

/-- Models the TS cast `pendingActionDetails as RecurringTask`. -/
def PendingDetails.asTask : PendingDetails → RecurringTask
  | .task t => t
  | _ => { id := "", title := "", recurrence := .daily,
           lastExecutionDate := none, dueDate := none, completed := false }

/-- Models the TS cast `pendingActionDetails as PaymentDetail`. -/
def PendingDetails.asPayment : PendingDetails → PaymentDetail
  | .payment p => p
  | _ => { id := "", biller := "", amount := 0, dueDate := "", paymentDate := "" }

/-- Models the TS cast `pendingActionDetails as Goal`. -/
def PendingDetails.asGoal : PendingDetails → Goal
  | .goal g => g
  | _ => { id := "", title := "", description := none, targetDate := "",
           progress := 0, status := .notStarted, creationDate := "" }

/-- Outcome of an awaited follow-up `chatSession.sendMessage` call:
success carries `response.text` with `none` standing for a falsy text, and
`err` models the rejected promise handled in the catch block. -/
inductive OracleReply where
  | ok (text : Option String)
  | err
deriving DecidableEq, Repr

/-- The component state of App.tsx relevant to the confirmation pipeline:
the conversation log, the four entity collections, and the confirmation
dialog state.  `hasChatSession` models whether `chatSessionRef.current`
is non-null. -/
structure AppState where
  messages : List Message
  calendarEvents : List CalendarEvent
  recurringTasks : List RecurringTask
  paymentHistory : List PaymentDetail
  goals : List Goal
  showConfirmationDialog : Bool
  pendingActionDetails : Option PendingDetails
  pendingActionType : Option PendingType
  pendingFunctionCall : Option FunctionCall
  loading : Bool
  error : Option String
  hasChatSession : Bool
deriving DecidableEq, Repr

/-- Models `formatEventDateTime` of utils/calendarUtils.ts with the locale
rendering abstracted as concatenation. -/
def formatEventDateTime (date time : String) : String := date ++ " " ++ time

/-- Models `formatCurrency` of utils/paymentUtils.ts with the locale
rendering abstracted. -/
def formatCurrency (amount : Int) : String := "$" ++ toString amount

/-- Display of an optional due date inside a template string; `none`
renders the way an undefined value interpolates in TS. -/
def dayText : Option Day → String
  | some d => toString d
  | none => "undefined"

/-- The `handleConfirm` callback of App.tsx (lines 237-348).  `now` is the
value of `Date.now()` at commit time and `reply` the outcome of the awaited
follow-up call to the model.  The early return fires when either pending
field is null; each branch commits the corresponding mutation, then the
follow-up response (or its failure) is appended when an AI response is
needed, and finally the pending slots are cleared. -/
def handleConfirm (s : AppState) (now : Nat) (reply : OracleReply) : AppState :=
  match s.pendingActionDetails, s.pendingActionType with
  | some details, some ty =>
    let s1 := { s with showConfirmationDialog := false, loading := true }
    let committed : AppState × String × Bool :=
      match ty with
      | .event =>
        let e := details.asEvent
        let newEvent : CalendarEvent :=
          { id := toString now, title := e.title, date := e.date, time := e.time }
        ({ s1 with calendarEvents := s1.calendarEvents ++ [newEvent] },
         "Calendar event \"" ++ e.title ++ "\" for " ++
           formatEventDateTime e.date e.time ++ " successfully created.",
         true)
      | .task =>
        let t := details.asTask
        let newTask : RecurringTask :=
          { id := toString now, title := t.title, recurrence := t.recurrence,
            lastExecutionDate := some (msToDay now), dueDate := t.dueDate,
            completed := false }
        ({ s1 with recurringTasks := s1.recurringTasks ++ [newTask] },
         "Recurring task \"" ++ t.title ++ "\" (" ++ t.recurrence.value ++ ")" ++
           (match t.dueDate with
            | some d => " with due date " ++ toString d
            | none => "") ++ " successfully created.",
         true)
      | .payment =>
        let p := details.asPayment
        let newPayment : PaymentDetail :=
          { id := toString now, biller := p.biller, amount := p.amount,
            dueDate := p.dueDate, paymentDate := msToDateString now }
        ({ s1 with paymentHistory := s1.paymentHistory ++ [newPayment] },
         "Payment of " ++ formatCurrency p.amount ++ " to " ++ p.biller ++
           " (due " ++ p.dueDate ++ ") has been initiated.",
         true)
      | .goal =>
        let g := details.asGoal
        let newGoal : Goal :=
          { id := toString now, title := g.title, description := g.description,
            targetDate := g.targetDate, progress := 0, status := .notStarted,
            creationDate := msToDateString now }
        ({ s1 with goals := s1.goals ++ [newGoal] },
         "Goal \"" ++ g.title ++ "\" targeting " ++ g.targetDate ++
           " successfully created.",
         true)
      | .confirmTaskCompletion =>
        let toggledTask := details.asTask
        let result := "Task \"" ++ toggledTask.title ++ "\" marked as " ++
          (if toggledTask.completed then "completed" else "not completed") ++ "."
        ({ s1 with
             recurringTasks := s1.recurringTasks.map fun task =>
               if task.id = toggledTask.id then
                 { task with completed := toggledTask.completed }
               else task,
             messages := s1.messages ++ [⟨.ai, result, none⟩] },
         result, false)
    let s2 := committed.1
    let resultMessage := committed.2.1
    let aiResponseNeeded := committed.2.2
    let s3 :=
      if aiResponseNeeded = true ∧ s.pendingFunctionCall ≠ none ∧
          s.hasChatSession = true then
        match reply with
        | .ok t =>
          { s2 with messages := s2.messages ++ [⟨.ai, t.getD resultMessage, none⟩] }
        | .err =>
          { s2 with
              error := some "Failed to communicate action result to AI.",
              messages := s2.messages ++
                [⟨.ai, resultMessage ++
                    " (Error: Failed to get AI\x27s follow-up message)", none⟩] }
      else s2
    { s3 with pendingActionDetails := none, pendingFunctionCall := none,
              pendingActionType := none, loading := false }
  | _, _ => s

/-- The `handleCancel` callback of App.tsx (lines 350-389).  It clears the
dialog and pending slots unconditionally; the branch condition reads the
closure values captured before the clearing.  `reply` is the outcome of the
cancellation notification sent to the model on the first branch. -/
def handleCancel (s : AppState) (reply : OracleReply) : AppState :=
  let s1 := { s with showConfirmationDialog := false, pendingActionDetails := none,
                     pendingFunctionCall := none, pendingActionType := none,
                     loading := true }
  if s.pendingActionType ≠ some .confirmTaskCompletion ∧ s.hasChatSession = true ∧
      s.pendingFunctionCall ≠ none then
    match reply with
    | .ok t =>
      { s1 with messages := s1.messages ++ [⟨.ai, t.getD "Action cancelled.", none⟩],
                loading := false }
    | .err =>
      { s1 with
          messages := s1.messages ++
            [⟨.ai, "Action cancelled (Error: Failed to get AI\x27s follow-up message)",
              none⟩],
          loading := false }
  else
    { s1 with messages := s1.messages ++ [⟨.ai, "Action cancelled.", none⟩],
              loading := false }

/-- The `handleToggleTaskCompletion` callback of App.tsx (lines 556-569):
a UI-originated request to toggle the completion of the task with the given
id; `currentCompletedStatus` is the `task.completed` value the view passes.
It looks the task up, stores the flipped draft, the type tag, and a dummy
function call, then shows the dialog; it does nothing when the id does not
resolve. -/
def handleToggleTaskCompletion (s : AppState) (taskId : String)
    (currentCompletedStatus : Bool) : AppState :=
  match s.recurringTasks.find? (fun task => task.id == taskId) with
  | some taskToToggle =>
      { s with
        pendingActionDetails :=
          some (.task { taskToToggle with completed := !currentCompletedStatus }),
        pendingActionType := some .confirmTaskCompletion,
        pendingFunctionCall :=
          some { id := "toggle-" ++ taskId, name := "toggleTaskCompletion",
                 args := .toggleArgs taskId (!currentCompletedStatus) },
        showConfirmationDialog := true }
  | none => s

/-- The function-call branch of `sendMessage` in App.tsx (lines 432-492):
dispatch on the returned call name, store the pending draft built from the
call arguments together with the call itself and show the dialog, or, for
an unrecognised name, append the "not configured" notice and stop
loading. -/
def handleFunctionCall (s : AppState) (fc : FunctionCall) : AppState :=
  if fc.name = "createCalendarEvent" then
    let a := fc.args.asEventArgs
    { s with
      pendingActionDetails :=
        some (.event { id := "", title := a.1, date := a.2.1, time := a.2.2 }),
      pendingActionType := some .event,
      pendingFunctionCall := some fc,
      showConfirmationDialog := true }
  else if fc.name = "createRecurringTask" then
    let a := fc.args.asTaskArgs
    { s with
      pendingActionDetails :=
        some (.task { id := "", title := a.1, recurrence := a.2.1,
                      lastExecutionDate := none, dueDate := a.2.2,
                      completed := false }),
      pendingActionType := some .task,
      pendingFunctionCall := some fc,
      showConfirmationDialog := true }
  else if fc.name = "payBill" then
    let a := fc.args.asPayArgs
    { s with
      pendingActionDetails :=
        some (.payment { id := "", biller := a.1, amount := a.2.1,
                         dueDate := a.2.2, paymentDate := "" }),
      pendingActionType := some .payment,
      pendingFunctionCall := some fc,
      showConfirmationDialog := true }
  else if fc.name = "createGoal" then
    let a := fc.args.asGoalArgs
    { s with
      pendingActionDetails :=
        some (.goal { id := "", title := a.1, description := a.2.1,
                      targetDate := a.2.2, progress := 0,
                      status := .notStarted, creationDate := "" }),
      pendingActionType := some .goal,
      pendingFunctionCall := some fc,
      showConfirmationDialog := true }
  else
    { s with
      messages := s.messages ++
        [⟨.ai, "I received a request to perform \"" ++ fc.name ++
            "\", but I\x27m not configured to directly execute it without confirmation yet.",
          none⟩],
      loading := false }

/-- The `sendMessage` callback of App.tsx (lines 415-513) in the case where
the model returned a function call `fc`: the guard ignores blank input and
input while loading, the user message is appended, loading starts, and the
call is dispatched. -/
def sendMessage (s : AppState) (text : String) (fc : FunctionCall) : AppState :=
  if text.trim = "" ∨ s.loading = true then s
  else
    handleFunctionCall
      { s with messages := s.messages ++ [⟨.user, text, none⟩],
               error := none, loading := true } fc

/-- External events driving the confirmation pipeline. -/
inductive Event where
  | intent (text : String) (fc : FunctionCall)
  | toggle (taskId : String) (cur : Bool)
  | confirm (now : Nat) (reply : OracleReply)
  | cancel (reply : OracleReply)
deriving DecidableEq, Repr

/-- One external event applied to the state.  The chat input, voice and
send buttons are rendered with `disabled={loading || showConfirmationDialog}`
in App.tsx, so an intent event is only delivered when neither holds.
Modelled from the spec: the `ConfirmationDialog` component (source not
included under src/) is a modal overlay — "creating a new one while one is
outstanding is not permitted by the UI layer (the confirmation prompt is
modal)" — so a toggle event is only delivered while no dialog is shown. -/
def step (s : AppState) (e : Event) : AppState :=
  match e with
  | .intent text fc =>
      if s.loading = true ∨ s.showConfirmationDialog = true then s
      else sendMessage s text fc
  | .toggle taskId cur =>
      if s.showConfirmationDialog = true then s
      else handleToggleTaskCompletion s taskId cur
  | .confirm now reply => handleConfirm s now reply
  | .cancel reply => handleCancel s reply

/-- The state right after the mount effect of App.tsx: collections loaded
from storage, no pending action, dialog hidden, not loading, and the
welcome message posted. -/
def initState (events : List CalendarEvent) (tasks : List RecurringTask)
    (payments : List PaymentDetail) (goalList : List Goal)
    (hasChat : Bool) : AppState :=
  { messages :=
      [⟨.ai, "Hello! I\x27m Ava, your personal AI Concierge. How can I assist you with your administrative tasks today?",
        none⟩],
    calendarEvents := events, recurringTasks := tasks,
    paymentHistory := payments, goals := goalList,
    showConfirmationDialog := false, pendingActionDetails := none,
    pendingActionType := none, pendingFunctionCall := none,
    loading := false, error := none, hasChatSession := hasChat }

/-- Folding a sequence of external events from a start state. -/
def run (s : AppState) (evs : List Event) : AppState := evs.foldl step s

/-- Number of actions held by the pending slot of a state. -/
def pendingCount (s : AppState) : Nat :=
  if s.pendingActionDetails.isSome then 1 else 0

/-- Events that attempt to create a PendingAction. -/
def createsPending : Event → Prop
  | .intent _ _ => True
  | .toggle _ _ => True
  | _ => False

/-- The membership test of `getUpcomingDueDates` in utils/taskUtils.ts
(lines 69-101), for one task: completed tasks are skipped; a task needs a
due date; daysDiff is the day difference between the due date and today;
it is included when within the threshold window, or past due with a last
execution that is absent or strictly before the due date. -/
def dueSoon (today daysThreshold : Int) (task : RecurringTask) : Bool :=
  if task.completed then false
  else
    match task.dueDate with
    | none => false
    | some due =>
      let daysDiff := due - today
      if 0 ≤ daysDiff ∧ daysDiff ≤ daysThreshold then true
      else if daysDiff < 0 then
        match task.lastExecutionDate with
        | none => true
        | some l => decide (l < due)
      else false

/-- The `getUpcomingDueDates` function of utils/taskUtils.ts: the forEach
with conditional push is a filter by `dueSoon`. -/
def getUpcomingDueDates (tasks : List RecurringTask) (today : Int)
    (daysThreshold : Int) : List RecurringTask :=
  tasks.filter (dueSoon today daysThreshold)

/-- The reminder text template of `checkAndPostReminders` in App.tsx. -/
def reminderMessageOf (task : RecurringTask) : String :=
  "Reminder: Your recurring task \"" ++ task.title ++ "\" is due on " ++
    dayText task.dueDate ++ "!"

/-- The `checkAndPostReminders` step of App.tsx (lines 190-203): scan the
tasks with the default 7-day threshold, build the reminder texts, drop
those already present in the conversation log by exact content match, and
append the rest as AI messages. -/
def checkAndPostReminders (tasks : List RecurringTask) (today : Int)
    (messages : List Message) : List Message :=
  let upcoming := getUpcomingDueDates tasks today 7
  if upcoming.length > 0 then
    let reminderMessages := upcoming.map reminderMessageOf
    let newReminders := reminderMessages.filter
      (fun msg => !(messages.any (fun m => m.content == msg)))
    if newReminders.length > 0 then
      messages ++ newReminders.map (fun content => ⟨.ai, content, none⟩)
    else messages
  else messages

/-- A recurring task as parsed from storage: older entries may lack the
`completed` field (utils/taskUtils.ts). -/
structure StoredRecurringTask where
  id : String
  title : String
  recurrence : RecurrenceType
  lastExecutionDate : Option Day
  dueDate : Option Day
  completed : Option Bool
deriving DecidableEq, Repr

/-- The `loadRecurringTasksFromLocalStorage` function of utils/taskUtils.ts
(lines 23-37), applied to the successfully parsed list: a map that defaults
a missing `completed` to false. -/
def loadRecurringTasksFromLocalStorage
    (parsedTasks : List StoredRecurringTask) : List RecurringTask :=
  parsedTasks.map fun task =>
    { id := task.id, title := task.title, recurrence := task.recurrence,
      lastExecutionDate := task.lastExecutionDate, dueDate := task.dueDate,
      completed := task.completed.getD false }

/-- Invariant maintained by every step: whenever the pending slot is set,
the confirmation dialog is shown. -/
def PendingInv (s : AppState) : Prop :=
  s.pendingActionDetails.isSome = true → s.showConfirmationDialog = true

/-- Sample task used in concrete instantiations. -/
def sampleTask : RecurringTask :=
  { id := "1", title := "Water plants", recurrence := .daily,
    lastExecutionDate := none, dueDate := none, completed := false }

/-- Base state with empty collections and nothing pending. -/
def emptyState : AppState := initState [] [] [] [] true

/-- Base state holding one recurring task. -/
def oneTaskState : AppState := initState [] [sampleTask] [] [] true

/-- A pending calendar-event draft used in concrete instantiations. -/
def samplePendingEvent : PendingDetails :=
  .event { id := "", title := "Dentist", date := "2025-03-10", time := "09:00" }

/-- State awaiting confirmation of a model-originated calendar event. -/
def pendingEventState : AppState :=
  { emptyState with
      pendingActionDetails := some samplePendingEvent,
      pendingActionType := some PendingType.event,
      pendingFunctionCall :=
        some { id := "fc1", name := "createCalendarEvent",
               args := .eventArgs "Dentist" "2025-03-10" "09:00" },
      showConfirmationDialog := true, loading := true }

end Ava

namespace Ava

/-- C3: Cancelling a PendingAction of any kind leaves all four entity
collections (calendar events, recurring tasks, payment history, goals)
exactly equal to their values before the cancel; no entity is created,
removed, or modified. -/
theorem handleCancel_preserves_collections (s : AppState) (reply : OracleReply) :
    (handleCancel s reply).calendarEvents = s.calendarEvents ∧
    (handleCancel s reply).recurringTasks = s.recurringTasks ∧
    (handleCancel s reply).paymentHistory = s.paymentHistory ∧
    (handleCancel s reply).goals = s.goals := by
  unfold handleCancel
  cases reply <;> split <;> simp

/-- C10: Loading the recurring-task collection from storage preserves the
stored list length and order exactly, and the only change applied to each
record is defaulting a missing completed field to false. -/
theorem loadRecurringTasks_preserves_order
    (parsedTasks : List StoredRecurringTask) :
    (loadRecurringTasksFromLocalStorage parsedTasks).length = parsedTasks.length ∧
    ∀ i : Nat,
      (loadRecurringTasksFromLocalStorage parsedTasks)[i]? =
        (parsedTasks[i]?).map fun task =>
          { id := task.id, title := task.title, recurrence := task.recurrence,
            lastExecutionDate := task.lastExecutionDate, dueDate := task.dueDate,
            completed := task.completed.getD false } := by
  refine ⟨by simp [loadRecurringTasksFromLocalStorage], fun i => ?_⟩
  simp [loadRecurringTasksFromLocalStorage]

/-- Characterisation of the per-task membership test of the scanner. -/
theorem dueSoon_iff (today daysThreshold : Int) (task : RecurringTask) :
    dueSoon today daysThreshold task = true ↔
      task.completed = false ∧
      ∃ due, task.dueDate = some due ∧
        ((0 ≤ due - today ∧ due - today ≤ daysThreshold) ∨
         (due - today < 0 ∧
           (task.lastExecutionDate = none ∨
            ∃ l, task.lastExecutionDate = some l ∧ l < due))) := by
  obtain ⟨tid, ttitle, trec, tlast, tdue, tcomp⟩ := task
  unfold dueSoon
  cases tcomp <;> cases tdue <;> cases tlast <;> simp

/-- C6: the task scan of the Reminder Scanner includes a task exactly when
it is not completed, has a due date, and either lies inside the threshold
window or is past due with a last execution absent or strictly before the
due date; completed tasks and tasks without a due date are never
included. -/
theorem getUpcomingDueDates_mem_iff (tasks : List RecurringTask)
    (today daysThreshold : Int) (task : RecurringTask) :
    task ∈ getUpcomingDueDates tasks today daysThreshold ↔
      task ∈ tasks ∧ task.completed = false ∧
      ∃ due, task.dueDate = some due ∧
        ((0 ≤ due - today ∧ due - today ≤ daysThreshold) ∨
         (due - today < 0 ∧
           (task.lastExecutionDate = none ∨
            ∃ l, task.lastExecutionDate = some l ∧ l < due))) := by
  rw [getUpcomingDueDates, List.mem_filter, dueSoon_iff]

/-- Dispatch equation for a createGoal call: the draft keeps only title,
description and targetDate from the arguments. -/
theorem handleFunctionCall_createGoal (s : AppState) (cid title : String)
    (description : Option String) (targetDate : String)
    (progress : Option Nat) (status : Option GoalStatus) :
    handleFunctionCall s
        { id := cid, name := "createGoal",
          args := .goalArgs title description targetDate progress status }
      = { s with
            pendingActionDetails :=
              some (.goal { id := "", title := title,
                            description := description,
                            targetDate := targetDate, progress := 0,
                            status := GoalStatus.notStarted,
                            creationDate := "" }),
            pendingActionType := some PendingType.goal,
            pendingFunctionCall :=
              some { id := cid, name := "createGoal",
                     args := .goalArgs title description targetDate
                       progress status },
            showConfirmationDialog := true } := by
  unfold handleFunctionCall
  dsimp only [FnArgs.asGoalArgs]
  rw [if_neg (by decide), if_neg (by decide), if_neg (by decide),
      if_pos (by decide)]

/-- C5: every Goal record created through a confirmed Goal PendingAction
has progress 0 and status notStarted, for every intent argument map,
including arguments that request other progress or status values. -/
theorem goal_creation_forces_defaults (s : AppState) (cid title : String)
    (description : Option String) (targetDate : String)
    (progress : Option Nat) (status : Option GoalStatus)
    (now : Nat) (reply : OracleReply) :
    ∃ g : Goal,
      (handleConfirm
          (handleFunctionCall s
            { id := cid, name := "createGoal",
              args := .goalArgs title description targetDate progress status })
          now reply).goals = s.goals ++ [g] ∧
      g.progress = 0 ∧ g.status = GoalStatus.notStarted := by
  refine ⟨{ id := toString now, title := title, description := description,
            targetDate := targetDate, progress := 0,
            status := GoalStatus.notStarted,
            creationDate := msToDateString now }, ?_, rfl, rfl⟩
  rw [handleFunctionCall_createGoal]
  simp only [handleConfirm, PendingDetails.asGoal]
  split <;> cases reply <;> simp

/-- C2: confirming an Event, Task, Payment or Goal PendingAction makes the
corresponding collection equal to the old collection with exactly one new
record appended, and that record id is distinct from every existing id,
given that the commit-time timestamp string is fresh. -/
theorem handleConfirm_appends_unique (s : AppState) (now : Nat)
    (reply : OracleReply) :
    (∀ d, s.pendingActionDetails = some d →
      s.pendingActionType = some PendingType.event →
      toString now ∉ s.calendarEvents.map CalendarEvent.id →
      ∃ r, (handleConfirm s now reply).calendarEvents = s.calendarEvents ++ [r] ∧
        r.id ∉ s.calendarEvents.map CalendarEvent.id) ∧
    (∀ d, s.pendingActionDetails = some d →
      s.pendingActionType = some PendingType.task →
      toString now ∉ s.recurringTasks.map RecurringTask.id →
      ∃ r, (handleConfirm s now reply).recurringTasks = s.recurringTasks ++ [r] ∧
        r.id ∉ s.recurringTasks.map RecurringTask.id) ∧
    (∀ d, s.pendingActionDetails = some d →
      s.pendingActionType = some PendingType.payment →
      toString now ∉ s.paymentHistory.map PaymentDetail.id →
      ∃ r, (handleConfirm s now reply).paymentHistory = s.paymentHistory ++ [r] ∧
        r.id ∉ s.paymentHistory.map PaymentDetail.id) ∧
    (∀ d, s.pendingActionDetails = some d →
      s.pendingActionType = some PendingType.goal →
      toString now ∉ s.goals.map Goal.id →
      ∃ r, (handleConfirm s now reply).goals = s.goals ++ [r] ∧
        r.id ∉ s.goals.map Goal.id) := by
  refine ⟨fun d hd ht hfresh => ?_, fun d hd ht hfresh => ?_,
          fun d hd ht hfresh => ?_, fun d hd ht hfresh => ?_⟩
  · refine ⟨{ id := toString now, title := d.asEvent.title,
              date := d.asEvent.date, time := d.asEvent.time }, ?_, hfresh⟩
    simp only [handleConfirm, hd, ht]
    split <;> cases reply <;> simp
  · refine ⟨{ id := toString now, title := d.asTask.title,
              recurrence := d.asTask.recurrence,
              lastExecutionDate := some (msToDay now),
              dueDate := d.asTask.dueDate, completed := false }, ?_, hfresh⟩
    simp only [handleConfirm, hd, ht]
    split <;> cases reply <;> simp
  · refine ⟨{ id := toString now, biller := d.asPayment.biller,
              amount := d.asPayment.amount, dueDate := d.asPayment.dueDate,
              paymentDate := msToDateString now }, ?_, hfresh⟩
    simp only [handleConfirm, hd, ht]
    split <;> cases reply <;> simp
  · refine ⟨{ id := toString now, title := d.asGoal.title,
              description := d.asGoal.description,
              targetDate := d.asGoal.targetDate, progress := 0,
              status := GoalStatus.notStarted,
              creationDate := msToDateString now }, ?_, hfresh⟩
    simp only [handleConfirm, hd, ht]
    split <;> cases reply <;> simp

/-- C4: for a confirmed ToggleTaskCompletion action targeting an existing
task id, the task collection keeps its length, every task with a different
id is unchanged in all fields, and the target task changes only its
completed field to the flipped draft value, with the other fields written
out unchanged (in particular lastExecutionDate). -/
theorem toggle_then_confirm_updates_only_completed (s : AppState)
    (taskId : String) (cur : Bool) (now : Nat) (reply : OracleReply)
    (t : RecurringTask)
    (hfind : s.recurringTasks.find? (fun task => task.id == taskId) = some t) :
    (handleConfirm (handleToggleTaskCompletion s taskId cur) now
        reply).recurringTasks.length = s.recurringTasks.length ∧
    (handleConfirm (handleToggleTaskCompletion s taskId cur) now
        reply).recurringTasks
      = s.recurringTasks.map fun task =>
          if task.id = taskId then
            { id := task.id, title := task.title, recurrence := task.recurrence,
              lastExecutionDate := task.lastExecutionDate,
              dueDate := task.dueDate, completed := !cur }
          else task := by
  have hid : t.id = taskId := by
    have h1 := List.find?_some hfind
    simpa using h1
  have hmain :
      (handleConfirm (handleToggleTaskCompletion s taskId cur) now
          reply).recurringTasks
        = s.recurringTasks.map fun task =>
            if task.id = taskId then
              { id := task.id, title := task.title,
                recurrence := task.recurrence,
                lastExecutionDate := task.lastExecutionDate,
                dueDate := task.dueDate, completed := !cur }
            else task := by
    simp only [handleToggleTaskCompletion, hfind]
    simp only [handleConfirm, PendingDetails.asTask]
    rw [hid]
    split <;> cases reply <;> simp
  exact ⟨by rw [hmain]; simp, hmain⟩

/-- Normal form of one reminder scan-and-post step: the log grows by the
reminder texts not yet present, regardless of the two length guards. -/
theorem checkAndPostReminders_eq_append (tasks : List RecurringTask)
    (today : Int) (messages : List Message) :
    checkAndPostReminders tasks today messages
      = messages ++
        (((getUpcomingDueDates tasks today 7).map reminderMessageOf).filter
            (fun msg => !(messages.any (fun m => m.content == msg)))).map
          (fun content => (⟨.ai, content, none⟩ : Message)) := by
  simp only [checkAndPostReminders]
  split_ifs with h0 h1
  · rfl
  · have h2 : ((getUpcomingDueDates tasks today 7).map reminderMessageOf).filter
        (fun msg => !(messages.any (fun m => m.content == msg))) = [] :=
      List.length_eq_zero.mp (by omega)
    rw [h2]
    simp
  · have h2 : getUpcomingDueDates tasks today 7 = [] :=
      List.length_eq_zero.mp (by omega)
    rw [h2]
    simp

/-- C7: running the reminder scan-and-post step twice with the task list
unchanged appends zero new reminder messages on the second run. -/
theorem checkAndPostReminders_idempotent (tasks : List RecurringTask)
    (today : Int) (messages : List Message) :
    checkAndPostReminders tasks today (checkAndPostReminders tasks today messages)
      = checkAndPostReminders tasks today messages := by
  rw [checkAndPostReminders_eq_append tasks today
        (checkAndPostReminders tasks today messages),
      checkAndPostReminders_eq_append tasks today messages]
  have hnil :
      ((getUpcomingDueDates tasks today 7).map reminderMessageOf).filter
        (fun msg =>
          !((messages ++
              (((getUpcomingDueDates tasks today 7).map reminderMessageOf).filter
                  (fun msg => !(messages.any (fun m => m.content == msg)))).map
                (fun content => (⟨.ai, content, none⟩ : Message))).any
              (fun m => m.content == msg))) = [] := by
    rw [List.filter_eq_nil_iff]
    intro msg hmsg
    simp only [List.any_append, Bool.not_eq_true, Bool.not_eq_false',
      Bool.or_eq_true]
    by_cases hA : messages.any (fun m => m.content == msg) = true
    · exact Or.inl hA
    · refine Or.inr (List.any_eq_true.mpr
        ⟨(⟨.ai, msg, none⟩ : Message), ?_, by simp⟩)
      refine List.mem_map.mpr ⟨msg, ?_, rfl⟩
      refine List.mem_filter.mpr ⟨hmsg, ?_⟩
      cases hx : messages.any (fun m => m.content == msg) with
      | false => simp [hx]
      | true => exact absurd hx hA
  rw [hnil]
  simp

/-- C8 counterexample: with no PendingAction set, cancelling still appends
an Action cancelled message to the conversation log, so cancel is not a
no-op. -/
theorem cancel_without_pending_appends :
    (handleCancel emptyState (.ok none)).messages ≠ emptyState.messages := by
  decide

/-- C8 amended: with no PendingAction set, confirm is exactly a no-op;
cancel changes no entity collection and does not crash, but appends one
Action cancelled message to the conversation log. -/
theorem no_pending_confirm_noop_cancel_appends (s : AppState) (now : Nat)
    (reply : OracleReply)
    (hd : s.pendingActionDetails = none) (hf : s.pendingFunctionCall = none) :
    handleConfirm s now reply = s ∧
    (handleCancel s reply).calendarEvents = s.calendarEvents ∧
    (handleCancel s reply).recurringTasks = s.recurringTasks ∧
    (handleCancel s reply).paymentHistory = s.paymentHistory ∧
    (handleCancel s reply).goals = s.goals ∧
    (handleCancel s reply).messages
      = s.messages ++ [⟨.ai, "Action cancelled.", none⟩] := by
  have hc : handleCancel s reply =
      { s with showConfirmationDialog := false, pendingActionDetails := none,
               pendingFunctionCall := none, pendingActionType := none,
               loading := false,
               messages := s.messages ++ [⟨.ai, "Action cancelled.", none⟩] } := by
    unfold handleCancel
    rw [if_neg (by simp [hf])]
  refine ⟨by simp [handleConfirm, hd], by rw [hc], by rw [hc], by rw [hc],
          by rw [hc], by rw [hc]⟩

/-- Concrete instantiation of the amended C8 statement. -/
theorem no_pending_confirm_noop_cancel_appends_witness :
    handleConfirm emptyState 0 (.ok none) = emptyState ∧
    (handleCancel emptyState (.ok none)).calendarEvents
      = emptyState.calendarEvents ∧
    (handleCancel emptyState (.ok none)).recurringTasks
      = emptyState.recurringTasks ∧
    (handleCancel emptyState (.ok none)).paymentHistory
      = emptyState.paymentHistory ∧
    (handleCancel emptyState (.ok none)).goals = emptyState.goals ∧
    (handleCancel emptyState (.ok none)).messages
      = emptyState.messages ++ [⟨.ai, "Action cancelled.", none⟩] :=
  no_pending_confirm_noop_cancel_appends emptyState 0 (.ok none) rfl rfl

/-- C9 counterexample: toggling a task from the UI stores a non-null
pending function call, contradicting a null sourceIntent for UI-originated
actions. -/
theorem toggle_stores_nonnull_call :
    (handleToggleTaskCompletion oneTaskState "1" false).pendingFunctionCall
      ≠ none := by
  decide

/-- C9 amended: a UI-originated toggle stores a non-null dummy function
call named toggleTaskCompletion, while a recognised model intent stores
exactly the returned function call, also non-null. -/
theorem pendingFunctionCall_origin (s : AppState) (taskId : String)
    (cur : Bool) (t : RecurringTask) (fc : FunctionCall)
    (hfind : s.recurringTasks.find? (fun task => task.id == taskId) = some t)
    (hname : fc.name = "createCalendarEvent" ∨
             fc.name = "createRecurringTask" ∨
             fc.name = "payBill" ∨ fc.name = "createGoal") :
    (handleToggleTaskCompletion s taskId cur).pendingFunctionCall
      = some { id := "toggle-" ++ taskId, name := "toggleTaskCompletion",
               args := .toggleArgs taskId (!cur) } ∧
    (handleFunctionCall s fc).pendingFunctionCall = some fc := by
  constructor
  · simp [handleToggleTaskCompletion, hfind]
  · unfold handleFunctionCall
    rcases hname with h | h | h | h <;> rw [h]
    · rw [if_pos (by decide)]
    · rw [if_neg (by decide), if_pos (by decide)]
    · rw [if_neg (by decide), if_neg (by decide), if_pos (by decide)]
    · rw [if_neg (by decide), if_neg (by decide), if_neg (by decide),
          if_pos (by decide)]

/-- Concrete instantiation of the amended C9 statement. -/
theorem pendingFunctionCall_origin_witness :
    (handleToggleTaskCompletion oneTaskState "1" false).pendingFunctionCall
      = some { id := "toggle-" ++ "1", name := "toggleTaskCompletion",
               args := .toggleArgs "1" (!false) } ∧
    (handleFunctionCall oneTaskState
        { id := "fc2", name := "createGoal",
          args := .goalArgs "Run" none "2025-12-31" (some 40)
            (some .inProgress) }).pendingFunctionCall
      = some { id := "fc2", name := "createGoal",
               args := .goalArgs "Run" none "2025-12-31" (some 40)
                 (some .inProgress) } :=
  pendingFunctionCall_origin oneTaskState "1" false sampleTask
    { id := "fc2", name := "createGoal",
      args := .goalArgs "Run" none "2025-12-31" (some 40) (some .inProgress) }
    (by decide) (by simp)

/-- Every step preserves the pending-slot invariant. -/
theorem step_preserves_PendingInv (s : AppState) (e : Event)
    (h : PendingInv s) : PendingInv (step s e) := by
  cases e with
  | intent text fc =>
    simp only [step]
    split
    · exact h
    · unfold sendMessage
      split
      · exact h
      · unfold handleFunctionCall
        split_ifs
        · intro _; rfl
        · intro _; rfl
        · intro _; rfl
        · intro _; rfl
        · exact fun hs => h hs
  | toggle taskId cur =>
    simp only [step]
    split
    · exact h
    · unfold handleToggleTaskCompletion
      split
      · intro _; rfl
      · exact h
  | confirm now reply =>
    simp only [step]
    unfold handleConfirm
    split
    · intro hs; simp at hs
    · exact h
  | cancel reply =>
    simp only [step]
    unfold handleCancel
    cases reply <;> split <;> (intro hs; simp at hs)

/-- The invariant holds along any run from a state that satisfies it. -/
theorem run_PendingInv (evs : List Event) (s : AppState) (h : PendingInv s) :
    PendingInv (run s evs) := by
  induction evs generalizing s with
  | nil => exact h
  | cons e tail ih => exact ih (step s e) (step_preserves_PendingInv s e h)

/-- With the invariant, a creating event fired while the pending slot is
occupied leaves the state unchanged. -/
theorem step_create_noop (s : AppState) (e : Event) (hinv : PendingInv s)
    (hc : createsPending e) (hsome : s.pendingActionDetails.isSome = true) :
    step s e = s := by
  have hdial := hinv hsome
  cases e with
  | intent text fc => simp only [step]; rw [if_pos (Or.inr hdial)]
  | toggle taskId cur => simp only [step]; rw [if_pos hdial]
  | confirm now reply => exact hc.elim
  | cancel reply => exact hc.elim

/-- C1: from the initial state, along every sequence of events the pending
slot holds at most one action, and an event that would create a second
PendingAction while one is outstanding is not observable: the step leaves
the state unchanged. -/
theorem pendingAction_single_slot (events : List CalendarEvent)
    (tasks : List RecurringTask) (payments : List PaymentDetail)
    (goalList : List Goal) (hasChat : Bool) (evs : List Event) (e : Event)
    (hc : createsPending e)
    (hsome : (run (initState events tasks payments goalList hasChat)
        evs).pendingActionDetails.isSome = true) :
    pendingCount (run (initState events tasks payments goalList hasChat) evs)
      ≤ 1 ∧
    step (run (initState events tasks payments goalList hasChat) evs) e
      = run (initState events tasks payments goalList hasChat) evs := by
  constructor
  · unfold pendingCount
    split <;> simp
  · exact step_create_noop _ e
      (run_PendingInv evs _ (fun hs => by simp [initState] at hs)) hc hsome

/-- Concrete instantiation of the C1 statement: after a toggle created a
pending action, a second creation attempt changes nothing. -/
theorem pendingAction_single_slot_witness :
    pendingCount (run (initState [] [sampleTask] [] [] true)
      [Event.toggle "1" false]) ≤ 1 ∧
    step (run (initState [] [sampleTask] [] [] true) [Event.toggle "1" false])
        (Event.toggle "1" true)
      = run (initState [] [sampleTask] [] [] true) [Event.toggle "1" false] :=
  pendingAction_single_slot [] [sampleTask] [] [] true [Event.toggle "1" false]
    (Event.toggle "1" true) trivial (by decide)

/-- Concrete instantiation of the C2 statement for an event commit. -/
theorem handleConfirm_appends_unique_witness :
    ∃ r, (handleConfirm pendingEventState 5 (.ok none)).calendarEvents
        = pendingEventState.calendarEvents ++ [r] ∧
      r.id ∉ pendingEventState.calendarEvents.map CalendarEvent.id :=
  (handleConfirm_appends_unique pendingEventState 5 (.ok none)).1
    samplePendingEvent rfl rfl (by decide)

/-- Concrete instantiation of the C4 statement. -/
theorem toggle_then_confirm_updates_only_completed_witness :
    (handleConfirm (handleToggleTaskCompletion oneTaskState "1" false) 7
        (.ok none)).recurringTasks.length
      = oneTaskState.recurringTasks.length ∧
    (handleConfirm (handleToggleTaskCompletion oneTaskState "1" false) 7
        (.ok none)).recurringTasks
      = oneTaskState.recurringTasks.map fun task =>
          if task.id = "1" then
            { id := task.id, title := task.title,
              recurrence := task.recurrence,
              lastExecutionDate := task.lastExecutionDate,
              dueDate := task.dueDate, completed := !false }
          else task :=
  toggle_then_confirm_updates_only_completed oneTaskState "1" false 7
    (.ok none) sampleTask (by decide)

end Ava
